import Mathlib

/-!
Shallow embedding of the cubob rendering crate (src/table.rs, src/struct.rs,
src/list.rs) and proofs about its specification claims.

Modelling conventions:
- A Rust `&dyn Display` value is modelled by the text it renders to.  For the
  table renderer only the one-line rendering matters, so a cell value is an
  `Option String` (the rendered text, `none` for a missing value).  For the
  builders both renderings matter, so a value is a pair of strings (`Disp`).
- `core::fmt::Result` is `Except Unit α` here (`Ok` / the opaque `fmt::Error`).
- Machine `usize` arithmetic is `Nat`: all quantities are small counts that
  only ever grow by string lengths, so no overflow modelling is needed.
-/

namespace Cubob

/-! ### WriteCounter (src/table.rs lines 208-231) -/

/-- Embedding of `struct WriteCounter(usize)`: a write sink that only keeps a
character tally. -/
structure WriteCounter where
  count : Nat
deriving DecidableEq

/-- Embedding of `WriteCounter::new`. -/
def WriteCounter.new : WriteCounter := ⟨0⟩

/-- Embedding of `WriteCounter::value`. -/
def WriteCounter.value (wc : WriteCounter) : Nat := wc.count

/-- Embedding of `WriteCounter::write_str`: `self.0 += s.chars().count()` and
return `Ok`.  Lean's `String.length` counts `Char`s (Unicode scalar values),
exactly as Rust's `s.chars().count()` does. -/
def WriteCounter.write_str (wc : WriteCounter) (s : String) :
    Except Unit WriteCounter :=
  Except.ok ⟨wc.count + s.length⟩

/-- Embedding of `WriteCounter::write_char`: `self.0 += 1` and return `Ok`. -/
def WriteCounter.write_char (wc : WriteCounter) (_ : Char) :
    Except Unit WriteCounter :=
  Except.ok ⟨wc.count + 1⟩

/-- One call made by a `Display` implementation against a `fmt::Write` sink. -/
inductive WriteOp where
  | str (s : String)
  | char (c : Char)

/-- Dispatch one write call to the counter. -/
def wcStep (wc : WriteCounter) : WriteOp → Except Unit WriteCounter
  | WriteOp.str s => wc.write_str s
  | WriteOp.char c => wc.write_char c

/-- Run a sequence of write calls through the counter with the error
propagation a `Display` implementation performs (stop at the first `Err`). -/
def wcRun (wc : WriteCounter) (ops : List WriteOp) : Except Unit WriteCounter :=
  ops.foldlM wcStep wc

/-- Character count contributed by one write call. -/
def WriteOp.chars : WriteOp → Nat
  | WriteOp.str s => s.length
  | WriteOp.char _ => 1

/-- Decidable success test for the embedded `fmt::Result`. -/
def isOkE {α : Type} : Except Unit α → Bool
  | Except.ok _ => true
  | Except.error _ => false

/-- Embedding of Rust's `Result::expect`: the `error` branch is the panic,
shown unreachable for `WriteCounter` writes. -/
def expectOk {α : Type} (e : Except Unit α) (dflt : α) : α :=
  match e with
  | Except.ok a => a
  | Except.error _ => dflt

/-! ### Table renderer (src/table.rs) -/

/-- Embedding of the `Row` trait for one row type `R`: the associated constant
`KEYS` and the method `value`, where a present `&dyn Display` is modelled by
its one-line rendered text. -/
structure RowSpec (R : Type) where
  KEYS : List String
  value : R → Nat → Option String

/-- Embedding of `values_iter`: `(0..R::KEYS.len()).map(|idx| row.value(idx))`. -/
def values_iter {R : Type} (rs : RowSpec R) (row : R) : List (Option String) :=
  (List.range rs.KEYS.length).map (rs.value row)

/-- Embedding of `max_in_place` (the in-place update returns the new value). -/
def max_in_place (overall current : Nat) : Nat :=
  if overall < current then current else overall

/-- Measuring one present value in `sizes_list`: write its rendering into a
fresh `WriteCounter` and `expect` the result (`wc.value()`). -/
def measure_value (v : String) : Nat :=
  (expectOk (WriteCounter.new.write_str v) WriteCounter.new).value

/-- The `current_sizes` iterator inside `sizes_list`: the measured width of
each value of the row, `unwrap_or(0)` for missing values. -/
def current_sizes {R : Type} (rs : RowSpec R) (row : R) : List Nat :=
  (values_iter rs row).map (fun x => (x.map measure_value).getD 0)

/-- One iteration of the `for row in rows` loop of `sizes_list`:
`overall_sizes.iter_mut().zip(current_sizes).for_each(max_in_place)`. -/
def sizes_step {R : Type} (rs : RowSpec R) (acc : List Nat) (row : R) : List Nat :=
  List.zipWith max_in_place acc (current_sizes rs row)

/-- Embedding of `sizes_list` (src/table.rs lines 176-206): start from
`vec![0; R::KEYS.len()]`, fold the per-row maxima in, then fold in the key
sizes `keys_iter::<R>().map(|x| x.len())` — note `str::len` is the UTF-8
byte length, `String.utf8ByteSize` here. -/
def sizes_list {R : Type} (rs : RowSpec R) (rows : List R) : List Nat :=
  List.zipWith max_in_place
    (rows.foldl (sizes_step rs) (List.replicate rs.KEYS.length 0))
    (rs.KEYS.map (fun x => x.utf8ByteSize))

/-- Left-justified space padding to `width`, as `write!(f, "{value:<width$}")`
performs it (the pad amount is `width` minus the character count, never
negative, and an oversized value is printed in full). -/
def pad (s : String) (width : Nat) : String :=
  s ++ String.mk (List.replicate (width - s.length) ' ')

/-- Embedding of `impl Display for Cell`: render the value (`""` when the
value is missing) left-justified to the cell width. -/
def cell_fmt (c : Option String × Nat) : String :=
  pad (c.1.getD "") c.2

/-- The delayed-by-one loop body of `row_fmt`: every cell but the last is
followed by `" | "`, the last by `"\n"`. -/
def row_fmt_go : Option String × Nat → List (Option String × Nat) → String
  | c, [] => cell_fmt c ++ "\n"
  | c, c2 :: rest => cell_fmt c ++ " | " ++ row_fmt_go c2 rest

/-- Embedding of `row_fmt` (src/table.rs lines 119-134): empty cell sequences
produce no output at all. -/
def row_fmt : List (Option String × Nat) → String
  | [] => ""
  | c :: rest => row_fmt_go c rest

/-- `write!(f, "{:-<width$}", "")`: exactly `width` dashes. -/
def dashes (w : Nat) : String :=
  String.mk (List.replicate w '-')

/-- The delayed-by-one loop body of `line_fmt`: every width but the last is
followed by `"-+-"`, the last by `"\n"`. -/
def line_fmt_go : Nat → List Nat → String
  | w, [] => dashes w ++ "\n"
  | w, w2 :: rest => dashes w ++ "-+-" ++ line_fmt_go w2 rest

/-- Embedding of `line_fmt` (src/table.rs lines 136-149). -/
def line_fmt : List Nat → String
  | [] => ""
  | w :: rest => line_fmt_go w rest

/-- Embedding of `keys_cells`: zip the key names (always-present cell values)
with the computed sizes. -/
def keys_cells {R : Type} (rs : RowSpec R) (sizes : List Nat) :
    List (Option String × Nat) :=
  (rs.KEYS.zip sizes).map (fun p => (some p.1, p.2))

/-- Embedding of `values_cells`: zip the row's optional values with the sizes. -/
def values_cells {R : Type} (rs : RowSpec R) (row : R) (sizes : List Nat) :
    List (Option String × Nat) :=
  (values_iter rs row).zip sizes

/-- The data-row loop of `Table::fmt`: every row in order through `row_fmt`. -/
def rows_fmt {R : Type} (rs : RowSpec R) (sizes : List Nat) :
    List R → String
  | [] => ""
  | r :: rest => row_fmt (values_cells rs r sizes) ++ rows_fmt rs sizes rest

/-- Embedding of `impl Display for Table::fmt` (src/table.rs lines 31-52): an
empty row source renders `"[]"`; otherwise a leading newline, the header row,
the separator line, and every data row. -/
def table_fmt {R : Type} (rs : RowSpec R) (rows : List R) : String :=
  match rows with
  | [] => "[]"
  | _ :: _ =>
    "\n" ++ row_fmt (keys_cells rs (sizes_list rs rows))
        ++ line_fmt (sizes_list rs rows)
        ++ rows_fmt rs (sizes_list rs rows) rows

/-- The `Row` instance used by the crate's own tests: a row is a plain list of
optional values, looked up by index (`self.get(idx)...flatten()`). -/
def listRowSpec (keys : List String) : RowSpec (List (Option String)) :=
  ⟨keys, fun r idx => (r.get? idx).getD none⟩

/-- The four data rows of the spec's table example, each value replaced by
its decimal rendering. -/
def exampleRows : List (List (Option String)) :=
  [[none, some "2", some "3", some "4"],
   [none, none, some "8", some "10"],
   [none, some "12", none, some "18"],
   [none, some "20", some "24", some "28"]]

/-! ### Aggregate and sequence builders (src/struct.rs, src/list.rs) -/

/-- Embedding of `enum Alternate` (src/lib.rs lines 84-92). -/
inductive Alternate where
  | oneLine
  | pretty
  | inherit
deriving DecidableEq

/-- Modelling of a `&dyn Display` value for the builders: its one-line
(`"{}"`) and pretty (`"{:#}"`) renderings. -/
structure Disp where
  usual : String
  alt : String
deriving DecidableEq

/-- The function-pointer `StructEntrier` field can only ever hold one of the
three named functions of src/struct.rs (`usual_struct_entrier`,
`alternative_struct_entrier`, `null_struct_entrier`), so it is embedded as an
enumeration of those three; the `as usize` pointer comparison in
`field_override` becomes equality with `null`. -/
inductive StructEntrierKind where
  | usual
  | alternative
  | null
deriving DecidableEq

/-- Text appended to the `DebugSet` by one struct entrier call:
`usual_struct_entrier` writes `format_args!("{}: {}", k, v)`,
`alternative_struct_entrier` writes `format_args!("{}: {:#}", k, v)`, and
`null_struct_entrier` writes nothing. -/
def struct_entry_text (e : StructEntrierKind) (k v : Disp) : List String :=
  match e with
  | StructEntrierKind.usual => [k.usual ++ ": " ++ v.usual]
  | StructEntrierKind.alternative => [k.usual ++ ": " ++ v.alt]
  | StructEntrierKind.null => []

/-- Apply a struct entrier to the wrapper (the `DebugSet`, modelled as the
list of entry texts appended so far). -/
def apply_struct_entrier (e : StructEntrierKind) (w : List String)
    (k v : Disp) : List String :=
  w ++ struct_entry_text e k v

/-- Embedding of src/struct.rs `inherit_entrier`. -/
def struct_inherit_entrier (inherited_value : Bool) : StructEntrierKind :=
  match inherited_value with
  | false => StructEntrierKind.usual
  | true => StructEntrierKind.alternative

/-- Embedding of `StructShow` (src/struct.rs lines 28-32): the `DebugSet`
wrapper is the list of entry texts it has received. -/
structure StructShow where
  wrapper : List String
  entrier : StructEntrierKind
  inherited_value : Bool
deriving DecidableEq

/-- Embedding of `StructShow::choose_entrier` (src/struct.rs lines 35-41). -/
def StructShow.choose_entrier (alternate : Alternate)
    (inherited_value : Bool) : StructEntrierKind :=
  match alternate with
  | Alternate.oneLine => StructEntrierKind.usual
  | Alternate.pretty => StructEntrierKind.alternative
  | Alternate.inherit => struct_inherit_entrier inherited_value

/-- Embedding of `StructShow::new`; `formatter_alternate` is the value of
`formatter.alternate()` read at construction. -/
def StructShow.new (formatter_alternate : Bool) (alternate : Alternate) :
    StructShow :=
  { wrapper := []
    entrier := StructShow.choose_entrier alternate formatter_alternate
    inherited_value := formatter_alternate }

/-- Embedding of `StructShow::inherit`. -/
def StructShow.inherit (formatter_alternate : Bool) : StructShow :=
  { wrapper := []
    entrier := struct_inherit_entrier formatter_alternate
    inherited_value := formatter_alternate }

/-- Embedding of `StructShow::field`: `(self.entrier)(&mut self.wrapper, key, val)`. -/
def StructShow.field (s : StructShow) (key val : Disp) : StructShow :=
  { s with wrapper := apply_struct_entrier s.entrier s.wrapper key val }

/-- Embedding of `StructShow::field_override` (src/struct.rs lines 72-85):
when the current entrier is not the null entrier, resolve a fresh entrier
from the argument and the frozen `inherited_value` and apply it once. -/
def StructShow.field_override (s : StructShow) (key val : Disp)
    (alternate : Alternate) : StructShow :=
  if s.entrier ≠ StructEntrierKind.null then
    { s with
      wrapper :=
        apply_struct_entrier
          (StructShow.choose_entrier alternate s.inherited_value)
          s.wrapper key val }
  else s

/-- Embedding of `StructShow::field_opt`. -/
def StructShow.field_opt (s : StructShow) (key : Disp) (val : Option Disp) :
    StructShow :=
  match val with
  | some actual_value => s.field key actual_value
  | none => s

/-- Embedding of `StructShow::field_opt_override`. -/
def StructShow.field_opt_override (s : StructShow) (key : Disp)
    (val : Option Disp) (alternate : Alternate) : StructShow :=
  match val with
  | some actual_value => s.field_override key actual_value alternate
  | none => s

/-- Embedding of `StructShow::finish` (src/struct.rs lines 109-112): the
entrier becomes the null entrier.  The `FmtResult` of `self.wrapper.finish()`
is the sink's own completion and is not modelled. -/
def StructShow.finish (s : StructShow) : StructShow :=
  { s with entrier := StructEntrierKind.null }

/-- Embedding of `StructShow::fields_from_iter`: one entrier call per element
in iteration order (the entrier field itself is read each time but never
written). -/
def StructShow.fields_from_iter (s : StructShow) (fs : List (Disp × Disp)) :
    StructShow :=
  fs.foldl
    (fun acc p =>
      { acc with wrapper := apply_struct_entrier acc.entrier acc.wrapper p.1 p.2 })
    s

/-- Embedding of `StructShow::fields`: delegates to `fields_from_iter`. -/
def StructShow.fields (s : StructShow) (fs : List (Disp × Disp)) : StructShow :=
  s.fields_from_iter fs

/-- Embedding of `StructShow::alternate` (src/struct.rs lines 129-132):
returns the stored `inherited_value`. -/
def StructShow.alternate (s : StructShow) : Bool :=
  s.inherited_value

/-- The three named `ListEntrier` functions of src/list.rs, embedded as an
enumeration just like `StructEntrierKind`. -/
inductive ListEntrierKind where
  | usual
  | alternative
  | null
deriving DecidableEq

/-- Text appended to the `DebugList` by one list entrier call:
`usual_list_entrier` writes `format_args!("{}", v)`,
`alternative_list_entrier` writes `format_args!("{:#}", v)`, and
`null_list_entrier` writes nothing. -/
def list_entry_text (e : ListEntrierKind) (v : Disp) : List String :=
  match e with
  | ListEntrierKind.usual => [v.usual]
  | ListEntrierKind.alternative => [v.alt]
  | ListEntrierKind.null => []

/-- Apply a list entrier to the wrapper. -/
def apply_list_entrier (e : ListEntrierKind) (w : List String) (v : Disp) :
    List String :=
  w ++ list_entry_text e v

/-- Embedding of src/list.rs `inherit_entrier`. -/
def list_inherit_entrier (inherited_value : Bool) : ListEntrierKind :=
  match inherited_value with
  | false => ListEntrierKind.usual
  | true => ListEntrierKind.alternative

/-- Embedding of `ListShow` (src/list.rs lines 28-32). -/
structure ListShow where
  wrapper : List String
  entrier : ListEntrierKind
  inherited_value : Bool
deriving DecidableEq

/-- Embedding of `ListShow::choose_entrier` (src/list.rs lines 35-41). -/
def ListShow.choose_entrier (alternate : Alternate)
    (inherited_value : Bool) : ListEntrierKind :=
  match alternate with
  | Alternate.oneLine => ListEntrierKind.usual
  | Alternate.pretty => ListEntrierKind.alternative
  | Alternate.inherit => list_inherit_entrier inherited_value

/-- Embedding of `ListShow::new`. -/
def ListShow.new (formatter_alternate : Bool) (alternate : Alternate) :
    ListShow :=
  { wrapper := []
    entrier := ListShow.choose_entrier alternate formatter_alternate
    inherited_value := formatter_alternate }

/-- Embedding of `ListShow::inherit`. -/
def ListShow.inherit (formatter_alternate : Bool) : ListShow :=
  { wrapper := []
    entrier := list_inherit_entrier formatter_alternate
    inherited_value := formatter_alternate }

/-- Embedding of `ListShow::item`. -/
def ListShow.item (l : ListShow) (val : Disp) : ListShow :=
  { l with wrapper := apply_list_entrier l.entrier l.wrapper val }

/-- Embedding of `ListShow::item_override` (src/list.rs lines 72-80). -/
def ListShow.item_override (l : ListShow) (val : Disp)
    (alternate : Alternate) : ListShow :=
  if l.entrier ≠ ListEntrierKind.null then
    { l with
      wrapper :=
        apply_list_entrier
          (ListShow.choose_entrier alternate l.inherited_value) l.wrapper val }
  else l

/-- Embedding of `ListShow::item_opt`. -/
def ListShow.item_opt (l : ListShow) (val : Option Disp) : ListShow :=
  match val with
  | some actual_value => l.item actual_value
  | none => l

/-- Embedding of `ListShow::item_opt_override`. -/
def ListShow.item_opt_override (l : ListShow) (val : Option Disp)
    (alternate : Alternate) : ListShow :=
  match val with
  | some actual_value => l.item_override actual_value alternate
  | none => l

/-- Embedding of `ListShow::finish` (src/list.rs lines 103-106). -/
def ListShow.finish (l : ListShow) : ListShow :=
  { l with entrier := ListEntrierKind.null }

/-- Embedding of `ListShow::items_from_iter`. -/
def ListShow.items_from_iter (l : ListShow) (vs : List Disp) : ListShow :=
  vs.foldl
    (fun acc v =>
      { acc with wrapper := apply_list_entrier acc.entrier acc.wrapper v })
    l

/-- Embedding of `ListShow::items`: delegates to `items_from_iter`. -/
def ListShow.items (l : ListShow) (vs : List Disp) : ListShow :=
  l.items_from_iter vs

/-- Embedding of `ListShow::alternate` (src/list.rs lines 123-126). -/
def ListShow.alternate (l : ListShow) : Bool :=
  l.inherited_value

/-! ### Specification-side definitions and concrete instances -/

/-- Column width of column `i` exactly as the claim words it: the maximum of
the CHARACTER count of label `i` and, over all rows, the character count of
the rendered value at `i`, missing values contributing nothing. -/
def spec_column_width {R : Type} (rs : RowSpec R) (rows : List R) (i : Nat) :
    Nat :=
  max (rs.KEYS.getD i "").length
    (rows.foldl (fun a r => max a (((rs.value r i).map String.length).getD 0)) 0)

/-- The amended column width: the label is measured by its UTF-8 byte count
(Rust `str::len`), which coincides with the character count exactly for
ASCII labels; present values are still measured in characters. -/
def spec_column_width_bytes {R : Type} (rs : RowSpec R) (rows : List R)
    (i : Nat) : Nat :=
  max (rs.KEYS.getD i "").utf8ByteSize
    (rows.foldl (fun a r => max a (((rs.value r i).map String.length).getD 0)) 0)

/-- A struct builder already driven to the finished state. -/
def structFinished : StructShow :=
  (StructShow.new false Alternate.oneLine).finish

/-- A list builder already driven to the finished state. -/
def listFinished : ListShow :=
  (ListShow.new false Alternate.oneLine).finish

/-- Concrete key for witness instantiations. -/
def dispK : Disp := ⟨"k", "K"⟩

/-- Concrete value for witness instantiations. -/
def dispV : Disp := ⟨"v", "V"⟩

/-- Second concrete key for witness instantiations. -/
def dispK2 : Disp := ⟨"k2", "K2"⟩

/-- Second concrete value for witness instantiations. -/
def dispV2 : Disp := ⟨"v2", "V2"⟩

/-! ### Helper lemmas -/

/-- The in-place update of `max_in_place` computes the binary maximum. -/
theorem max_in_place_eq_max (a b : Nat) : max_in_place a b = max a b := by
  simp only [max_in_place, Nat.max_def]
  split <;> split <;> omega

/-- Measuring a rendered value through the `WriteCounter` yields its
character count. -/
theorem measure_value_eq_length (v : String) : measure_value v = v.length := by
  simp [measure_value, WriteCounter.new, WriteCounter.write_str, expectOk,
    WriteCounter.value]

/-- Running any write sequence through the counter succeeds and adds exactly
the character total of the sequence. -/
theorem wcRun_ok (ops : List WriteOp) :
    ∀ wc : WriteCounter,
      wcRun wc ops = Except.ok ⟨wc.count + (ops.map WriteOp.chars).sum⟩ := by
  induction ops with
  | nil =>
    intro wc
    rfl
  | cons op t ih =>
    intro wc
    cases op with
    | str s =>
      have hstep : wcRun wc (WriteOp.str s :: t)
          = wcRun ⟨wc.count + s.length⟩ t := rfl
      rw [hstep, ih]
      simp [WriteOp.chars, Nat.add_assoc]
    | char c =>
      have hstep : wcRun wc (WriteOp.char c :: t)
          = wcRun ⟨wc.count + 1⟩ t := rfl
      rw [hstep, ih]
      simp [WriteOp.chars, Nat.add_assoc]

/-- The null struct entrier appends nothing. -/
theorem apply_struct_entrier_null (w : List String) (k v : Disp) :
    apply_struct_entrier StructEntrierKind.null w k v = w := by
  simp [apply_struct_entrier, struct_entry_text]

/-- The null list entrier appends nothing. -/
theorem apply_list_entrier_null (w : List String) (v : Disp) :
    apply_list_entrier ListEntrierKind.null w v = w := by
  simp [apply_list_entrier, list_entry_text]

/-- Bulk field accumulation on a finished struct builder is the identity. -/
theorem struct_fields_from_iter_null (fs : List (Disp × Disp)) :
    ∀ s : StructShow, s.entrier = StructEntrierKind.null →
      s.fields_from_iter fs = s := by
  induction fs with
  | nil => intro s _; rfl
  | cons p t ih =>
    intro s hs
    have hw : apply_struct_entrier s.entrier s.wrapper p.1 p.2 = s.wrapper := by
      rw [hs, apply_struct_entrier_null]
    have hstep :
        ({ s with wrapper := apply_struct_entrier s.entrier s.wrapper p.1 p.2 }
          : StructShow) = s := by
      rw [hw]
    calc s.fields_from_iter (p :: t)
        = ({ s with
              wrapper := apply_struct_entrier s.entrier s.wrapper p.1 p.2 }
            : StructShow).fields_from_iter t := rfl
      _ = s.fields_from_iter t := by rw [hstep]
      _ = s := ih s hs

/-- Bulk item accumulation on a finished list builder is the identity. -/
theorem list_items_from_iter_null (vs : List Disp) :
    ∀ l : ListShow, l.entrier = ListEntrierKind.null →
      l.items_from_iter vs = l := by
  induction vs with
  | nil => intro l _; rfl
  | cons v t ih =>
    intro l hl
    have hw : apply_list_entrier l.entrier l.wrapper v = l.wrapper := by
      rw [hl, apply_list_entrier_null]
    have hstep :
        ({ l with wrapper := apply_list_entrier l.entrier l.wrapper v }
          : ListShow) = l := by
      rw [hw]
    calc l.items_from_iter (v :: t)
        = ({ l with wrapper := apply_list_entrier l.entrier l.wrapper v }
            : ListShow).items_from_iter t := rfl
      _ = l.items_from_iter t := by rw [hstep]
      _ = l := ih l hl

/-- Struct mode resolution never produces the null entrier. -/
theorem struct_choose_ne_null (a : Alternate) (b : Bool) :
    StructShow.choose_entrier a b ≠ StructEntrierKind.null := by
  cases a <;> cases b <;> decide

/-- List mode resolution never produces the null entrier. -/
theorem list_choose_ne_null (a : Alternate) (b : Bool) :
    ListShow.choose_entrier a b ≠ ListEntrierKind.null := by
  cases a <;> cases b <;> decide

/-- Every non-null struct entrier appends exactly one entry. -/
theorem struct_entry_text_length (e : StructEntrierKind)
    (he : e ≠ StructEntrierKind.null) (k v : Disp) :
    (struct_entry_text e k v).length = 1 := by
  cases e with
  | usual => rfl
  | alternative => rfl
  | null => exact absurd rfl he

/-- Every non-null list entrier appends exactly one entry. -/
theorem list_entry_text_length (e : ListEntrierKind)
    (he : e ≠ ListEntrierKind.null) (v : Disp) :
    (list_entry_text e v).length = 1 := by
  cases e with
  | usual => rfl
  | alternative => rfl
  | null => exact absurd rfl he

/-- Pointwise reading of the zipped maximum update. -/
theorem getD_zipWith_max (l1 : List Nat) :
    ∀ (l2 : List Nat) (i : Nat), i < l1.length → i < l2.length →
      (List.zipWith max_in_place l1 l2).getD i 0
        = max (l1.getD i 0) (l2.getD i 0) := by
  induction l1 with
  | nil =>
    intro l2 i h1 _
    exact absurd h1 (by simp)
  | cons a t ih =>
    intro l2 i h1 h2
    cases l2 with
    | nil => exact absurd h2 (by simp)
    | cons b t2 =>
      cases i with
      | zero =>
        simp [List.getD_cons_zero, max_in_place_eq_max]
      | succ n =>
        simp only [List.zipWith_cons_cons, List.getD_cons_succ]
        exact ih t2 n (by simpa using h1) (by simpa using h2)

/-- Length of the per-row measured sizes equals the column count. -/
theorem current_sizes_length {R : Type} (rs : RowSpec R) (row : R) :
    (current_sizes rs row).length = rs.KEYS.length := by
  simp [current_sizes, values_iter]

/-- Pointwise reading of the per-row measured sizes. -/
theorem current_sizes_getD {R : Type} (rs : RowSpec R) (row : R) (i : Nat)
    (h : i < rs.KEYS.length) :
    (current_sizes rs row).getD i 0
      = ((rs.value row i).map String.length).getD 0 := by
  simp only [current_sizes, values_iter, List.getD_eq_getElem?_getD,
    List.getElem?_map, List.getElem?_range h, Option.map_some]
  cases hv : rs.value row i <;> simp [hv, measure_value_eq_length]

/-- The row loop of `sizes_list` preserves the column count. -/
theorem foldl_sizes_step_length {R : Type} (rs : RowSpec R) (rows : List R) :
    ∀ acc : List Nat, acc.length = rs.KEYS.length →
      (rows.foldl (sizes_step rs) acc).length = rs.KEYS.length := by
  induction rows with
  | nil => intro acc h; simpa using h
  | cons r t ih =>
    intro acc h
    rw [List.foldl_cons]
    exact ih _ (by simp [sizes_step, List.length_zipWith, h, current_sizes_length])

/-- Pointwise reading of the row loop of `sizes_list`: column `i` of the
accumulator evolves by taking the maximum with each row's measured width at
`i`. -/
theorem foldl_sizes_step_getD {R : Type} (rs : RowSpec R) (rows : List R)
    (i : Nat) (hi : i < rs.KEYS.length) :
    ∀ acc : List Nat, acc.length = rs.KEYS.length →
      (rows.foldl (sizes_step rs) acc).getD i 0
        = rows.foldl
            (fun a r => max a (((rs.value r i).map String.length).getD 0))
            (acc.getD i 0) := by
  induction rows with
  | nil => intro acc _; rfl
  | cons r t ih =>
    intro acc hacc
    have hlen : (sizes_step rs acc r).length = rs.KEYS.length := by
      simp [sizes_step, List.length_zipWith, hacc, current_sizes_length]
    rw [List.foldl_cons, List.foldl_cons, ih _ hlen]
    congr 1
    rw [sizes_step,
      getD_zipWith_max _ _ _ (by omega)
        (by rw [current_sizes_length]; omega),
      current_sizes_getD _ _ _ hi]

/-- Closed form of one entry of `sizes_list`: the maximum of the label's
UTF-8 byte count and the measured character counts of the present values of
that column. -/
theorem sizes_list_getD {R : Type} (rs : RowSpec R) (rows : List R) (i : Nat)
    (hi : i < rs.KEYS.length) :
    (sizes_list rs rows).getD i 0 = spec_column_width_bytes rs rows i := by
  have h1 :
      (rows.foldl (sizes_step rs) (List.replicate rs.KEYS.length 0)).length
        = rs.KEYS.length :=
    foldl_sizes_step_length rs rows _ (by simp)
  have h2 : (rs.KEYS.map (fun x => x.utf8ByteSize)).length = rs.KEYS.length := by
    simp
  rw [sizes_list, getD_zipWith_max _ _ _ (by omega) (by omega),
    foldl_sizes_step_getD rs rows i hi _ (by simp)]
  have hz : (List.replicate rs.KEYS.length 0).getD i 0 = 0 := by
    simp [List.getD_eq_getElem?_getD, List.getElem?_replicate, hi]
  have hmap : (rs.KEYS.map (fun x => x.utf8ByteSize)).getD i 0
      = (rs.KEYS.getD i "").utf8ByteSize := by
    rw [List.getD_eq_getElem?_getD, List.getElem?_map,
      List.getElem?_eq_getElem hi, List.getD_eq_getElem?_getD,
      List.getElem?_eq_getElem hi]
    rfl
  rw [hz, hmap, spec_column_width_bytes, Nat.max_comm]

/-- A list of rows each rendering to nothing joins to nothing. -/
theorem rows_fmt_nil_sizes {R : Type} (rs : RowSpec R) (rows : List R) :
    rows_fmt rs [] rows = "" := by
  induction rows with
  | nil => rfl
  | cons r t ih =>
    show row_fmt (values_cells rs r []) ++ rows_fmt rs [] t = ""
    rw [ih, values_cells, List.zip_nil_right]
    rfl

/-- A field call on a finished struct builder is the identity. -/
theorem struct_field_null (s : StructShow)
    (hs : s.entrier = StructEntrierKind.null) (k v : Disp) :
    s.field k v = s := by
  have hw : apply_struct_entrier s.entrier s.wrapper k v = s.wrapper := by
    rw [hs, apply_struct_entrier_null]
  show ({ s with wrapper := apply_struct_entrier s.entrier s.wrapper k v }
    : StructShow) = s
  rw [hw]

/-- A field-override call on a finished struct builder is the identity. -/
theorem struct_field_override_null (s : StructShow)
    (hs : s.entrier = StructEntrierKind.null) (k v : Disp) (a : Alternate) :
    s.field_override k v a = s := by
  simp only [StructShow.field_override]
  rw [if_neg (fun hne => hne hs)]

/-- An item call on a finished list builder is the identity. -/
theorem list_item_null (l : ListShow)
    (hl : l.entrier = ListEntrierKind.null) (v : Disp) :
    l.item v = l := by
  have hw : apply_list_entrier l.entrier l.wrapper v = l.wrapper := by
    rw [hl, apply_list_entrier_null]
  show ({ l with wrapper := apply_list_entrier l.entrier l.wrapper v }
    : ListShow) = l
  rw [hw]

/-- An item-override call on a finished list builder is the identity. -/
theorem list_item_override_null (l : ListShow)
    (hl : l.entrier = ListEntrierKind.null) (v : Disp) (a : Alternate) :
    l.item_override v a = l := by
  simp only [ListShow.item_override]
  rw [if_neg (fun hne => hne hl)]

/-! ### Claims -/

/-- C1 counterexample: for the single-column table with the non-ASCII label
`"é"` (one character, two UTF-8 bytes) and one row holding the one-character
value `"x"`, the computed width is 2 — the label's BYTE count — while the
claim's character-count formula gives `max 1 1 = 1`, so the claim as stated
is false. -/
theorem claim1_label_width_counterexample :
    (sizes_list (listRowSpec ["é"]) [[some "x"]]).getD 0 0
      ≠ spec_column_width (listRowSpec ["é"]) [[some "x"]] 0 ∧
    sizes_list (listRowSpec ["é"]) [[some "x"]] = [2] ∧
    spec_column_width (listRowSpec ["é"]) [[some "x"]] 0 = 1 ∧
    ("é" : String).length = 1 ∧ ("é" : String).utf8ByteSize = 2 := by
  exact ⟨by decide, by decide, by decide, by decide, by decide⟩

/-- C1 (amended): for every table with at least one row, the computed width
of column `i` equals the maximum of the UTF-8 BYTE count of the `i`-th
column label (`str::len`; identical to the character count for ASCII
labels) and, over all rows, the character count of the one-line rendering of
that row's value at column `i`, missing values contributing nothing (so a
column with no present values gets its label's byte count). -/
theorem claim1_column_width_amended {R : Type} (rs : RowSpec R)
    (rows : List R) (_hrows : rows ≠ []) (i : Nat)
    (hi : i < rs.KEYS.length) :
    (sizes_list rs rows).getD i 0 = spec_column_width_bytes rs rows i :=
  sizes_list_getD rs rows i hi

/-- C1 witness: the amended width equation instantiated on the spec's
four-column example table at column 1. -/
theorem claim1_column_width_amended_witness :
    exampleRows ≠ [] ∧
    1 < (listRowSpec ["A", "B", "C", "D"]).KEYS.length ∧
    (sizes_list (listRowSpec ["A", "B", "C", "D"]) exampleRows).getD 1 0
      = spec_column_width_bytes (listRowSpec ["A", "B", "C", "D"])
          exampleRows 1 :=
  ⟨by decide, by decide,
    claim1_column_width_amended (listRowSpec ["A", "B", "C", "D"])
      exampleRows (by decide) 1 (by decide)⟩

/-- C2: the spec's table example — labels `A B C D`, four rows with the
stated present and missing values — computes the per-column widths
`[1, 2, 2, 2]` and renders to exactly the stated text: a leading newline,
the space-padded header joined by `" | "`, the dash separator joined by
`"-+-"`, and the four data rows, every line newline-terminated. -/
theorem claim2_table_example :
    sizes_list (listRowSpec ["A", "B", "C", "D"]) exampleRows
      = [1, 2, 2, 2] ∧
    table_fmt (listRowSpec ["A", "B", "C", "D"]) exampleRows
      = "\nA | B  | C  | D \n--+----+----+---\n  | 2  | 3  | 4 \n  |    | 8  | 10\n  | 12 |    | 18\n  | 20 | 24 | 28\n" := by
  exact ⟨by decide, by decide⟩

/-- C3: a finished builder is silent and stays finished — on a builder whose
entrier is the null entrier, every accumulation call of `StructShow`
(`field`, `field_override`, `field_opt`, `field_opt_override`, `fields`,
`fields_from_iter`) and of `ListShow` (`item`, `item_override`, `item_opt`,
`item_opt_override`, `items`, `items_from_iter`) returns the builder
unchanged (in particular it writes nothing), and `finish` always moves any
builder to the null entrier, so no operation ever leaves the finished
state. -/
theorem claim3_finished_builders_silent (s : StructShow) (l : ListShow)
    (hs : s.entrier = StructEntrierKind.null)
    (hl : l.entrier = ListEntrierKind.null)
    (k v : Disp) (vo : Option Disp) (a : Alternate)
    (fs : List (Disp × Disp)) (vs : List Disp) :
    s.field k v = s ∧
    s.field_override k v a = s ∧
    s.field_opt k vo = s ∧
    s.field_opt_override k vo a = s ∧
    s.fields fs = s ∧
    s.fields_from_iter fs = s ∧
    l.item v = l ∧
    l.item_override v a = l ∧
    l.item_opt vo = l ∧
    l.item_opt_override vo a = l ∧
    l.items vs = l ∧
    l.items_from_iter vs = l ∧
    (∀ s' : StructShow, s'.finish.entrier = StructEntrierKind.null) ∧
    (∀ l' : ListShow, l'.finish.entrier = ListEntrierKind.null) := by
  refine ⟨struct_field_null s hs k v,
    struct_field_override_null s hs k v a,
    ?_, ?_,
    struct_fields_from_iter_null fs s hs,
    struct_fields_from_iter_null fs s hs,
    list_item_null l hl v,
    list_item_override_null l hl v a,
    ?_, ?_,
    list_items_from_iter_null vs l hl,
    list_items_from_iter_null vs l hl,
    fun _ => rfl, fun _ => rfl⟩
  · cases vo with
    | some actual_value => exact struct_field_null s hs k actual_value
    | none => rfl
  · cases vo with
    | some actual_value => exact struct_field_override_null s hs k actual_value a
    | none => rfl
  · cases vo with
    | some actual_value => exact list_item_null l hl actual_value
    | none => rfl
  · cases vo with
    | some actual_value => exact list_item_override_null l hl actual_value a
    | none => rfl

/-- C3 witness: the silence equations instantiated on concrete finished
struct and list builders. -/
theorem claim3_finished_builders_silent_witness :
    structFinished.entrier = StructEntrierKind.null ∧
    listFinished.entrier = ListEntrierKind.null ∧
    (structFinished.field dispK dispV = structFinished ∧
     structFinished.field_override dispK dispV Alternate.pretty
       = structFinished ∧
     structFinished.field_opt dispK (some dispV2) = structFinished ∧
     structFinished.field_opt_override dispK (some dispV2) Alternate.pretty
       = structFinished ∧
     structFinished.fields [(dispK, dispV)] = structFinished ∧
     structFinished.fields_from_iter [(dispK, dispV)] = structFinished ∧
     listFinished.item dispV = listFinished ∧
     listFinished.item_override dispV Alternate.pretty = listFinished ∧
     listFinished.item_opt (some dispV2) = listFinished ∧
     listFinished.item_opt_override (some dispV2) Alternate.pretty
       = listFinished ∧
     listFinished.items [dispV] = listFinished ∧
     listFinished.items_from_iter [dispV] = listFinished ∧
     (∀ s' : StructShow, s'.finish.entrier = StructEntrierKind.null) ∧
     (∀ l' : ListShow, l'.finish.entrier = ListEntrierKind.null)) :=
  ⟨rfl, rfl,
    claim3_finished_builders_silent structFinished listFinished rfl rfl
      dispK dispV (some dispV2) Alternate.pretty [(dispK, dispV)] [dispV]⟩

/-- C4: mode resolution is the pure function of the requested mode and the
ambient flag given by the spec's table — `OneLine` always yields the
one-line entrier, `Pretty` always the pretty entrier, and `Inherit` the
entrier matching the ambient flag — for the struct builder and the list
builder alike. -/
theorem claim4_mode_resolution (b : Bool) :
    StructShow.choose_entrier Alternate.oneLine b = StructEntrierKind.usual ∧
    StructShow.choose_entrier Alternate.pretty b
      = StructEntrierKind.alternative ∧
    StructShow.choose_entrier Alternate.inherit b
      = struct_inherit_entrier b ∧
    struct_inherit_entrier false = StructEntrierKind.usual ∧
    struct_inherit_entrier true = StructEntrierKind.alternative ∧
    ListShow.choose_entrier Alternate.oneLine b = ListEntrierKind.usual ∧
    ListShow.choose_entrier Alternate.pretty b
      = ListEntrierKind.alternative ∧
    ListShow.choose_entrier Alternate.inherit b = list_inherit_entrier b ∧
    list_inherit_entrier false = ListEntrierKind.usual ∧
    list_inherit_entrier true = ListEntrierKind.alternative := by
  cases b <;>
    exact ⟨rfl, rfl, rfl, rfl, rfl, rfl, rfl, rfl, rfl, rfl⟩

/-- C5 counterexample: a builder constructed with `Alternate::Pretty` on a
formatter whose ambient alternate flag is `false` renders its entries with
the pretty entrier, yet its `alternate()` accessor returns `false` — not
`true` as the claim requires for a `Pretty`-constructed builder. -/
theorem claim5_alternate_counterexample :
    (StructShow.new false Alternate.pretty).alternate = false ∧
    (StructShow.new false Alternate.pretty).entrier
      = StructEntrierKind.alternative ∧
    (ListShow.new false Alternate.pretty).alternate = false ∧
    (ListShow.new false Alternate.pretty).entrier
      = ListEntrierKind.alternative :=
  ⟨rfl, rfl, rfl, rfl⟩

/-- C5 (amended): the read accessor `alternate()` returns the formatter's
ambient alternate flag captured at construction, for every requested mode
and for both constructors of both builders; it equals the resolved
pretty/one-line mode only when that mode was inherited, not for an explicit
`Pretty` or `OneLine` request that disagrees with the ambient flag. -/
theorem claim5_alternate_amended (amb : Bool) (a : Alternate) :
    (StructShow.new amb a).alternate = amb ∧
    (StructShow.inherit amb).alternate = amb ∧
    (ListShow.new amb a).alternate = amb ∧
    (ListShow.inherit amb).alternate = amb :=
  ⟨rfl, rfl, rfl, rfl⟩

/-- C6: the `WriteCounter` tally is the total CHARACTER count of everything
written — `write_str` adds exactly the character count of its argument,
`write_char` adds exactly 1, any write sequence sums them — and a
three-character value in a multi-byte encoding (nine UTF-8 bytes here)
measures width 3, never its byte count. -/
theorem claim6_write_counter_chars (ops : List WriteOp) :
    wcRun WriteCounter.new ops
      = Except.ok ⟨(ops.map WriteOp.chars).sum⟩ ∧
    (∀ (wc : WriteCounter) (s : String),
      wc.write_str s = Except.ok ⟨wc.count + s.length⟩) ∧
    (∀ (wc : WriteCounter) (c : Char),
      wc.write_char c = Except.ok ⟨wc.count + 1⟩) ∧
    wcRun WriteCounter.new [WriteOp.str "日本語"] = Except.ok ⟨3⟩ ∧
    ("日本語" : String).utf8ByteSize = 9 := by
  refine ⟨?_, fun wc s => rfl, fun wc c => rfl, rfl, by decide⟩
  rw [wcRun_ok]
  simp [WriteCounter.new]

/-- C7: on an active builder, an override call renders exactly one entry
whose mode is resolved from the override argument (falling back to the
frozen ambient flag only through `choose_entrier`'s `Inherit` arm), while
the builder's own entrier and frozen ambient flag are untouched, so a
following plain `field`/`item` call still appends with the builder's own
entrier. -/
theorem claim7_override_frame (s : StructShow) (l : ListShow)
    (hs : s.entrier ≠ StructEntrierKind.null)
    (hl : l.entrier ≠ ListEntrierKind.null)
    (k v k2 v2 : Disp) (a : Alternate) :
    (s.field_override k v a).wrapper
      = s.wrapper
        ++ struct_entry_text (StructShow.choose_entrier a s.inherited_value)
             k v ∧
    (struct_entry_text (StructShow.choose_entrier a s.inherited_value)
        k v).length = 1 ∧
    (s.field_override k v a).entrier = s.entrier ∧
    (s.field_override k v a).inherited_value = s.inherited_value ∧
    ((s.field_override k v a).field k2 v2).wrapper
      = (s.field_override k v a).wrapper ++ struct_entry_text s.entrier k2 v2 ∧
    (l.item_override v a).wrapper
      = l.wrapper
        ++ list_entry_text (ListShow.choose_entrier a l.inherited_value) v ∧
    (list_entry_text (ListShow.choose_entrier a l.inherited_value) v).length
      = 1 ∧
    (l.item_override v a).entrier = l.entrier ∧
    (l.item_override v a).inherited_value = l.inherited_value ∧
    ((l.item_override v a).item v2).wrapper
      = (l.item_override v a).wrapper ++ list_entry_text l.entrier v2 := by
  have hso : s.field_override k v a
      = { s with
          wrapper :=
            apply_struct_entrier
              (StructShow.choose_entrier a s.inherited_value) s.wrapper k v } := by
    simp only [StructShow.field_override]
    rw [if_pos hs]
  have hlo : l.item_override v a
      = { l with
          wrapper :=
            apply_list_entrier
              (ListShow.choose_entrier a l.inherited_value) l.wrapper v } := by
    simp only [ListShow.item_override]
    rw [if_pos hl]
  refine ⟨by rw [hso]; rfl,
    struct_entry_text_length _ (struct_choose_ne_null a _) k v,
    by rw [hso], by rw [hso], by rw [hso]; rfl,
    by rw [hlo]; rfl,
    list_entry_text_length _ (list_choose_ne_null a _) v,
    by rw [hlo], by rw [hlo], by rw [hlo]; rfl⟩

/-- C7 witness: the override frame conditions instantiated on fresh active
one-line builders with a pretty override. -/
theorem claim7_override_frame_witness :
    (StructShow.new false Alternate.oneLine).entrier
      ≠ StructEntrierKind.null ∧
    (ListShow.new false Alternate.oneLine).entrier ≠ ListEntrierKind.null ∧
    (((StructShow.new false Alternate.oneLine).field_override dispK dispV
        Alternate.pretty).wrapper
      = (StructShow.new false Alternate.oneLine).wrapper
        ++ struct_entry_text
             (StructShow.choose_entrier Alternate.pretty
               (StructShow.new false Alternate.oneLine).inherited_value)
             dispK dispV ∧
     (struct_entry_text
         (StructShow.choose_entrier Alternate.pretty
           (StructShow.new false Alternate.oneLine).inherited_value)
         dispK dispV).length = 1 ∧
     ((StructShow.new false Alternate.oneLine).field_override dispK dispV
         Alternate.pretty).entrier
       = (StructShow.new false Alternate.oneLine).entrier ∧
     ((StructShow.new false Alternate.oneLine).field_override dispK dispV
         Alternate.pretty).inherited_value
       = (StructShow.new false Alternate.oneLine).inherited_value ∧
     (((StructShow.new false Alternate.oneLine).field_override dispK dispV
         Alternate.pretty).field dispK2 dispV2).wrapper
       = ((StructShow.new false Alternate.oneLine).field_override dispK dispV
           Alternate.pretty).wrapper
         ++ struct_entry_text (StructShow.new false Alternate.oneLine).entrier
              dispK2 dispV2 ∧
     ((ListShow.new false Alternate.oneLine).item_override dispV
         Alternate.pretty).wrapper
       = (ListShow.new false Alternate.oneLine).wrapper
         ++ list_entry_text
              (ListShow.choose_entrier Alternate.pretty
                (ListShow.new false Alternate.oneLine).inherited_value)
              dispV ∧
     (list_entry_text
         (ListShow.choose_entrier Alternate.pretty
           (ListShow.new false Alternate.oneLine).inherited_value)
         dispV).length = 1 ∧
     ((ListShow.new false Alternate.oneLine).item_override dispV
         Alternate.pretty).entrier
       = (ListShow.new false Alternate.oneLine).entrier ∧
     ((ListShow.new false Alternate.oneLine).item_override dispV
         Alternate.pretty).inherited_value
       = (ListShow.new false Alternate.oneLine).inherited_value ∧
     (((ListShow.new false Alternate.oneLine).item_override dispV
         Alternate.pretty).item dispV2).wrapper
       = ((ListShow.new false Alternate.oneLine).item_override dispV
           Alternate.pretty).wrapper
         ++ list_entry_text (ListShow.new false Alternate.oneLine).entrier
              dispV2) :=
  ⟨by decide, by decide,
    claim7_override_frame (StructShow.new false Alternate.oneLine)
      (ListShow.new false Alternate.oneLine) (by decide) (by decide)
      dispK dispV dispK2 dispV2 Alternate.pretty⟩

/-- C8: a table whose row source yields no rows renders to exactly the two
characters of the bracket pair — no leading newline, no header, no
separator, nothing else. -/
theorem claim8_empty_table (R : Type) (rs : RowSpec R) :
    table_fmt rs [] = "[]" :=
  rfl

/-- C9: both write operations of `WriteCounter` return `Ok` on every input,
error propagation across any write sequence therefore never produces `Err`,
and the `expect` in the measure phase of `sizes_list` always receives the
successfully measured counter (its panic branch is unreachable). -/
theorem claim9_write_counter_infallible :
    (∀ (wc : WriteCounter) (s : String), isOkE (wc.write_str s) = true) ∧
    (∀ (wc : WriteCounter) (c : Char), isOkE (wc.write_char c) = true) ∧
    (∀ (wc : WriteCounter) (ops : List WriteOp),
      isOkE (wcRun wc ops) = true) ∧
    (∀ v : String,
      expectOk (WriteCounter.new.write_str v) WriteCounter.new
        = ⟨v.length⟩) ∧
    (∀ v : String, measure_value v = v.length) := by
  refine ⟨fun wc s => rfl, fun wc c => rfl, fun wc ops => ?_, fun v => ?_,
    measure_value_eq_length⟩
  · rw [wcRun_ok]
    rfl
  · simp [WriteCounter.new, WriteCounter.write_str, expectOk]

/-- C10: when the column-label list is empty and at least one row exists,
the rendered table is exactly the leading newline — the header row, the
separator line, and every data row emit nothing at all, because `row_fmt`
and `line_fmt` write nothing (not even a newline) on an empty cell or width
sequence. -/
theorem claim10_empty_keys {R : Type} (rs : RowSpec R)
    (hkeys : rs.KEYS = []) (r : R) (rest : List R) :
    table_fmt rs (r :: rest) = "\n" ∧
    row_fmt [] = "" ∧
    line_fmt [] = "" := by
  refine ⟨?_, rfl, rfl⟩
  have hsizes : sizes_list rs (r :: rest) = [] := by
    simp [sizes_list, hkeys, List.zipWith_nil_right]
  show "\n" ++ row_fmt (keys_cells rs (sizes_list rs (r :: rest)))
      ++ line_fmt (sizes_list rs (r :: rest))
      ++ rows_fmt rs (sizes_list rs (r :: rest)) (r :: rest) = "\n"
  rw [hsizes, rows_fmt_nil_sizes, keys_cells, List.zip_nil_right]
  rfl

/-- C10 witness: the empty-label rendering instantiated on a concrete
one-row table with no columns. -/
theorem claim10_empty_keys_witness :
    (listRowSpec []).KEYS = [] ∧
    (table_fmt (listRowSpec []) [[some "x"]] = "\n" ∧
     row_fmt [] = "" ∧
     line_fmt [] = "") :=
  ⟨rfl, claim10_empty_keys (listRowSpec []) rfl [some "x"] []⟩

end Cubob
